import Mathlib

/-!
Verification of the `startr` command runner (`src/main.rs`).

The source is shallowly embedded: the `CommandType` / `Command` data model,
the `Display` implementation, the `run` dispatcher, and the batch loop of
`main` become Lean definitions.  OS interaction (`std::env::current_dir`,
`Command::spawn`, `Child::wait_with_output`) is abstracted as an `Env`
oracle supplying the result of each call; `.unwrap()` panics are modelled
as an explicit `panicked` status and the rayon `par_iter` schedule as a
reordering function on parallel groups.  The YAML deserialization derived
by serde for the two enums is embedded over a small YAML value type.
-/

/-- Host platform distinguished by `cfg!(windows)` in `shell_command`. -/
inductive Platform where
  | windows
  | posix
deriving DecidableEq

/-- Embeds the Rust enum `CommandType`: `Command(String)` is the shell-line
form, `Execution { command, working_directory, args, spawn_only }` the
direct-execution form (serde defaults: `args = Vec::new()`,
`spawn_only = false`). -/
inductive CommandType where
  | Command (cmd : String)
  | Execution (command : String) (working_directory : Option String)
      (args : List String) (spawn_only : Bool)
deriving DecidableEq

/-- Embeds the Rust enum `Command`: a batch is a single command or a
parallel group. -/
inductive Command where
  | Single (cmd : CommandType)
  | Parallel (cmds : List CommandType)
deriving DecidableEq

/-- Rust `char::escape_debug_ext` as used by the `Debug` impl for `str`
(double quotes escaped, single quotes not), in Rust's match order: `\0`,
`\t`, `\r`, `\n`, `\\` and `\"` by name, printable characters verbatim,
anything else as a lowercase-hex unicode escape.  The verbatim branch is
stated for ASCII (`0x20..=0x7E`): every higher code point takes the
unicode-escape branch here, which matches Rust for grapheme-extended and
non-printable characters but not for printable non-ASCII (Rust emits those
verbatim); Rust's Unicode printability table is outside the model, so the
label-text theorems assert exact rendering over ASCII contents only. -/
def rustEscapeChar (c : Char) : String :=
  if c = Char.ofNat 0 then "\\0"
  else if c = '\t' then "\\t"
  else if c = '\r' then "\\r"
  else if c = '\n' then "\\n"
  else if c = '\\' then "\\\\"
  else if c = '"' then "\\\""
  else if 0x20 ≤ c.toNat ∧ c.toNat ≤ 0x7E then String.singleton c
  else "\\u\x7b" ++ String.mk (Nat.toDigits 16 c.toNat) ++ "\x7d"

/-- Escapes every character of a `Debug`-quoted string's contents in
turn. -/
def escapeAll : List Char → String
  | [] => ""
  | c :: cs => rustEscapeChar c ++ escapeAll cs

/-- Rust `Debug` rendering of a `String`: double quotes around the escaped
contents, as produced by `{:?}`. -/
def rustDebugString (s : String) : String :=
  "\"" ++ escapeAll s.data ++ "\""

/-- Characters the `Debug` escaping emits verbatim: printable ASCII other
than the double quote and the backslash. -/
def plainChar (c : Char) : Bool :=
  (0x20 ≤ c.toNat && c.toNat ≤ 0x7E) && c ≠ '"' && c ≠ '\\'

/-- Strings whose `Debug` rendering is exactly the verbatim contents in
double quotes. -/
def plainString (s : String) : Bool := s.data.all plainChar

/-- Rust `Debug` rendering of an `Option<String>`: `None` or
`Some("...")`. -/
def rustDebugOption : Option String → String
  | none => "None"
  | some s => "Some(" ++ rustDebugString s ++ ")"

/-- Rust `Debug` rendering of a `Vec<String>`: bracketed, comma-space
separated, each element `Debug`-quoted. -/
def rustDebugList (xs : List String) : String :=
  "[" ++ String.intercalate ", " (xs.map rustDebugString) ++ "]"

/-- Embeds `impl fmt::Display for CommandType`: the shell line verbatim, or
`"{} in {:?} with {:?}"` over the program, the raw optional
working-directory field and the argument vector. -/
def CommandType.display : CommandType → String
  | .Command cmd => cmd
  | .Execution command working_directory args _ =>
      command ++ " in " ++ rustDebugOption working_directory ++ " with "
        ++ rustDebugList args

/-- The OS process invocation assembled by `run`: program, argv tail, and
the working directory handed to `current_dir` (`none` when the builder
leaves it untouched, i.e. the child inherits the parent's directory). -/
structure SpawnCall where
  program : String
  args : List String
  cwd : Option String
deriving DecidableEq

/-- Captured result of `Child::wait_with_output`: the child's stdout
bytes. -/
structure ProcOutput where
  stdout : List Nat
deriving DecidableEq

/-- Oracle for the OS calls the program makes: the platform probed by
`cfg!(windows)`, the result of `std::env::current_dir()`, of
`Command::spawn` and of `Child::wait_with_output` per invocation. -/
structure Env where
  platform : Platform
  currentDir : Except String String
  spawn : SpawnCall → Except String Unit
  waitOutput : SpawnCall → Except String ProcOutput

/-- Embeds `std::process::Command::arg`: append one argv entry. -/
def SpawnCall.arg (c : SpawnCall) (a : String) : SpawnCall :=
  { c with args := c.args ++ [a] }

/-- Embeds `fn shell_command()`: the platform's interpreter builder,
`cmd /C` under `cfg!(windows)` and `sh -c` otherwise. -/
def shell_command (p : Platform) : SpawnCall :=
  match p with
  | .windows => SpawnCall.arg { program := "cmd", args := [], cwd := none } "/C"
  | .posix => SpawnCall.arg { program := "sh", args := [], cwd := none } "-c"

/-- Embeds the Rust struct `ExecutionResult`: the spawn outcome plus the
wait decision, together with the invocation it came from (implicit in the
Rust `Child` handle). -/
structure ExecutionResult where
  call : SpawnCall
  child : Except String Unit
  wait : Bool

/-- Embeds `fn run(command: &CommandType) -> ExecutionResult`.  `none`
models the `.unwrap()` panic on `std::env::current_dir()`: because
`map_or` evaluates its default eagerly, the panic fires for every
`Execution` spec whenever `current_dir` fails, even with an explicit
working directory.  Shell lines never consult `current_dir`. -/
def run (env : Env) (command : CommandType) : Option ExecutionResult :=
  match command with
  | .Command cmd =>
      let call := (shell_command env.platform).arg cmd
      some { call := call, child := env.spawn call, wait := true }
  | .Execution command working_directory args spawn_only =>
      match env.currentDir with
      | .error _ => none
      | .ok cur =>
          let call : SpawnCall :=
            { program := command, args := args,
              cwd := some (working_directory.getD cur) }
          some { call := call, child := env.spawn call, wait := !spawn_only }

/-- How a piece of the run ended: normally, with a propagated `?` error
(Single path), or with a panic (`unwrap`), which aborts the process. -/
inductive ExecStatus where
  | ok
  | err (e : String)
  | panicked
deriving DecidableEq

/-- Unicode replacement character emitted by `String::from_utf8_lossy` for
invalid byte sequences. -/
def replacementChar : Char := Char.ofNat 0xFFFD

/-- Continuation-byte table of Rust's UTF-8 validation for three-byte
sequences: the admissible second byte per lead byte. -/
def utf8ThirdOk (b b2 : Nat) : Bool :=
  (b = 0xE0 && 0xA0 ≤ b2 && b2 ≤ 0xBF)
    || (0xE1 ≤ b && b ≤ 0xEC && 0x80 ≤ b2 && b2 ≤ 0xBF)
    || (b = 0xED && 0x80 ≤ b2 && b2 ≤ 0x9F)
    || (0xEE ≤ b && b ≤ 0xEF && 0x80 ≤ b2 && b2 ≤ 0xBF)

/-- Continuation-byte table of Rust's UTF-8 validation for four-byte
sequences: the admissible second byte per lead byte. -/
def utf8FourthOk (b b2 : Nat) : Bool :=
  (b = 0xF0 && 0x90 ≤ b2 && b2 ≤ 0xBF)
    || (0xF1 ≤ b && b ≤ 0xF3 && 0x80 ≤ b2 && b2 ≤ 0xBF)
    || (b = 0xF4 && 0x80 ≤ b2 && b2 ≤ 0x8F)

/-- Plain continuation byte check `0x80..=0xBF`. -/
def utf8Cont (b : Nat) : Bool := 0x80 ≤ b && b ≤ 0xBF

/-- Core loop of `String::from_utf8_lossy`, structurally recursive on a
fuel argument (every step consumes at least one byte, so fuel equal to the
byte count is enough): decode UTF-8, replacing each maximal invalid
subpart by one replacement character, with Rust's resynchronisation
points (an invalid continuation byte is not consumed; a truncated final
sequence yields one replacement character). -/
def utf8LossyGo : Nat → List Nat → List Char
  | 0, _ => []
  | _ + 1, [] => []
  | fuel + 1, b :: rest =>
      if b < 0x80 then Char.ofNat b :: utf8LossyGo fuel rest
      else if 0xC2 ≤ b && b ≤ 0xDF then
        match rest with
        | [] => [replacementChar]
        | b2 :: rest2 =>
            if utf8Cont b2 then
              Char.ofNat ((b - 0xC0) * 64 + (b2 - 0x80)) :: utf8LossyGo fuel rest2
            else replacementChar :: utf8LossyGo fuel (b2 :: rest2)
      else if 0xE0 ≤ b && b ≤ 0xEF then
        match rest with
        | [] => [replacementChar]
        | b2 :: rest2 =>
            if utf8ThirdOk b b2 then
              match rest2 with
              | [] => [replacementChar]
              | b3 :: rest3 =>
                  if utf8Cont b3 then
                    Char.ofNat ((b - 0xE0) * 4096 + (b2 - 0x80) * 64 + (b3 - 0x80))
                      :: utf8LossyGo fuel rest3
                  else replacementChar :: utf8LossyGo fuel (b3 :: rest3)
            else replacementChar :: utf8LossyGo fuel (b2 :: rest2)
      else if 0xF0 ≤ b && b ≤ 0xF4 then
        match rest with
        | [] => [replacementChar]
        | b2 :: rest2 =>
            if utf8FourthOk b b2 then
              match rest2 with
              | [] => [replacementChar]
              | b3 :: rest3 =>
                  if utf8Cont b3 then
                    match rest3 with
                    | [] => [replacementChar]
                    | b4 :: rest4 =>
                        if utf8Cont b4 then
                          Char.ofNat ((b - 0xF0) * 262144 + (b2 - 0x80) * 4096
                              + (b3 - 0x80) * 64 + (b4 - 0x80))
                            :: utf8LossyGo fuel rest4
                        else replacementChar :: utf8LossyGo fuel (b4 :: rest4)
                  else replacementChar :: utf8LossyGo fuel (b3 :: rest3)
            else replacementChar :: utf8LossyGo fuel (b2 :: rest2)
      else replacementChar :: utf8LossyGo fuel rest

/-- Lossy UTF-8 decoding of stdout bytes to the printed `String`. -/
def utf8Lossy (bytes : List Nat) : String := String.mk (utf8LossyGo bytes.length bytes)

/-- Embeds the `Command::Single` arm of the batch loop in `main`: print the
label, dispatch, then either propagate a `?` error, print the decoded
stdout after waiting, or print the spawned marker without inspecting the
spawn result.  The returned lines are the `println!` outputs in order. -/
def execSingle (env : Env) (cmd : CommandType) : List String × ExecStatus :=
  match run env cmd with
  | none => ([cmd.display], .panicked)
  | some result =>
      if result.wait then
        match result.child with
        | .error e => ([cmd.display], .err e)
        | .ok _ =>
            match env.waitOutput result.call with
            | .error e => ([cmd.display], .err e)
            | .ok out => ([cmd.display, utf8Lossy out.stdout], .ok)
      else ([cmd.display, "spawned " ++ cmd.display], .ok)

/-- Embeds one worker task of the `Command::Parallel` arm: identical to the
Single arm except that both the spawn result and the wait result are
`.unwrap()`ed, so any failure is a panic instead of a propagated error. -/
def execTask (env : Env) (cmd : CommandType) : List String × ExecStatus :=
  match run env cmd with
  | none => ([cmd.display], .panicked)
  | some result =>
      if result.wait then
        match result.child with
        | .error _ => ([cmd.display], .panicked)
        | .ok _ =>
            match env.waitOutput result.call with
            | .error _ => ([cmd.display], .panicked)
            | .ok out => ([cmd.display, utf8Lossy out.stdout], .ok)
      else ([cmd.display, "spawned " ++ cmd.display], .ok)

/-- Runs the tasks of a parallel group in one serialised interleaving (the
scheduled order); a task panic propagates out of rayon's `for_each` join
and aborts the run, so later tasks of that interleaving do not run. -/
def execTasks (env : Env) : List CommandType → List String × ExecStatus
  | [] => ([], .ok)
  | cmd :: rest =>
      let r := execTask env cmd
      match r.2 with
      | .ok =>
          let r2 := execTasks env rest
          (r.1 ++ r2.1, r2.2)
      | st => (r.1, st)

/-- Embeds one iteration of the batch loop; `sched` reorders a parallel
group into the serialised interleaving chosen by rayon's scheduler
(nondeterministic in the source, a parameter here). -/
def execBatch (env : Env) (sched : List CommandType → List CommandType) :
    Command → List String × ExecStatus
  | .Single cmd => execSingle env cmd
  | .Parallel cmds => execTasks env (sched cmds)

/-- Embeds the batch loop of `main` over the deserialized batch list:
batches run strictly in order, and a propagated error or panic stops the
run before the next batch. -/
def execute (env : Env) (sched : List CommandType → List CommandType) :
    List Command → List String × ExecStatus
  | [] => ([], .ok)
  | b :: rest =>
      let r := execBatch env sched b
      match r.2 with
      | .ok =>
          let r2 := execute env sched rest
          (r.1 ++ r2.1, r2.2)
      | st => (r.1, st)

/-- YAML values as seen by serde after parsing: scalars, sequences and
string-keyed mappings (the fragment the two enums can consume). -/
inductive Yaml where
  | str (s : String)
  | bool (b : Bool)
  | seq (items : List Yaml)
  | map (entries : List (String × Yaml))
  | null

/-- First value bound to a key in a mapping, as serde's field visitor
sees it. -/
def lookupField (entries : List (String × Yaml)) (name : String) : Option Yaml :=
  match entries with
  | [] => none
  | (k, v) :: rest => if k = name then some v else lookupField rest name

/-- Deserializes `Option<String>`: an absent or null field is `None`, a
string is `Some`; anything else is a type error.  Error messages stand in
for serde's; only the ok/error structure is modelled. -/
def fieldOptString (entries : List (String × Yaml)) (name : String) :
    Except String (Option String) :=
  match lookupField entries name with
  | none => .ok none
  | some .null => .ok none
  | some (.str s) => .ok (some s)
  | some _ => .error ("invalid type for field " ++ name)

/-- Deserializes every element of a sequence as a string (the contents of
`args: Vec<String>`). -/
def deserializeStringList : List Yaml → Except String (List String)
  | [] => .ok []
  | .str s :: rest => (deserializeStringList rest).map (fun l => s :: l)
  | _ :: _ => .error "invalid type: expected a string"

/-- Deserializes the `args` field with its serde default `Vec::new`: an
absent field is the empty list, never an error. -/
def fieldArgsD (entries : List (String × Yaml)) : Except String (List String) :=
  match lookupField entries "args" with
  | none => .ok []
  | some (.seq items) => deserializeStringList items
  | some _ => .error "invalid type for field args"

/-- Deserializes the `spawn_only` field with its serde default
`bool::default()`: an absent field is `false`. -/
def fieldSpawnOnlyD (entries : List (String × Yaml)) : Except String Bool :=
  match lookupField entries "spawn_only" with
  | none => .ok false
  | some (.bool b) => .ok b
  | some _ => .error "invalid type for field spawn_only"

/-- Deserializes the field map of the `Execution` struct variant: `command`
is required, `working_directory` defaults to `None`, `args` to `[]`,
`spawn_only` to `false`; unknown fields are ignored (serde's default). -/
def deserializeExecution : Yaml → Except String CommandType
  | .map entries => do
      let command ←
        match lookupField entries "command" with
        | some (.str s) => Except.ok s
        | some _ => Except.error "invalid type for field command"
        | none => Except.error "missing field command"
      let wd ← fieldOptString entries "working_directory"
      let args ← fieldArgsD entries
      let so ← fieldSpawnOnlyD entries
      Except.ok (.Execution command wd args so)
  | _ => .error "invalid type: expected a map for variant Execution"

/-- Embeds the serde-derived `Deserialize` for the externally tagged enum
`CommandType`: the value must be a single-key mapping whose key names the
variant; a bare scalar or sequence is a type error (there is no untagged
fallback). -/
def deserializeCommandType : Yaml → Except String CommandType
  | .map [(tag, v)] =>
      if tag = "Command" then
        match v with
        | .str s => .ok (.Command s)
        | _ => .error "invalid type for variant Command"
      else if tag = "Execution" then deserializeExecution v
      else .error ("unknown variant " ++ tag)
  | _ => .error "invalid type: expected externally tagged enum CommandType"

/-- Deserializes the contents of a `Parallel` group element-wise. -/
def deserializeCommandTypeList : List Yaml → Except String (List CommandType)
  | [] => .ok []
  | y :: rest => do
      let c ← deserializeCommandType y
      let cs ← deserializeCommandTypeList rest
      Except.ok (c :: cs)

/-- Embeds the serde-derived `Deserialize` for the externally tagged enum
`Command`: a single-key `Single` or `Parallel` mapping; in particular a
bare sequence is a type error, not a `Parallel` batch. -/
def deserializeCommand : Yaml → Except String Command
  | .map [(tag, v)] =>
      if tag = "Single" then (deserializeCommandType v).map Command.Single
      else if tag = "Parallel" then
        match v with
        | .seq items => (deserializeCommandTypeList items).map Command.Parallel
        | _ => .error "invalid type for variant Parallel"
      else .error ("unknown variant " ++ tag)
  | _ => .error "invalid type: expected externally tagged enum Command"

/-- Deserializes the batch list element-wise. -/
def deserializeCommandList : List Yaml → Except String (List Command)
  | [] => .ok []
  | y :: rest => do
      let c ← deserializeCommand y
      let cs ← deserializeCommandList rest
      Except.ok (c :: cs)

/-- Embeds `serde_yaml::from_str::<Vec<Command>>` after YAML parsing: the
document must be a sequence of batches. -/
def deserializeConfig : Yaml → Except String (List Command)
  | .seq items => deserializeCommandList items
  | _ => .error "invalid type: expected a sequence"

/-- The working directory argument assembled in the `Execution` arm of
`run`: the explicit `working_directory` when present, else the already
unwrapped current directory. -/
def execCall (command : String) (working_directory : Option String)
    (args : List String) (cur : String) : SpawnCall :=
  { program := command, args := args, cwd := some (working_directory.getD cur) }

/-- Fixture oracle: POSIX host, current directory `/w`, every spawn
succeeds, every wait yields the stdout bytes of `"hi\n"`. -/
def envOk : Env where
  platform := .posix
  currentDir := .ok "/w"
  spawn := fun _ => .ok ()
  waitOutput := fun _ => .ok (ProcOutput.mk [104, 105, 10])

/-- Fixture oracle: like `envOk` but every process start fails with
`ENOENT`. -/
def envSpawnFail : Env where
  platform := .posix
  currentDir := .ok "/w"
  spawn := fun _ => .error "ENOENT"
  waitOutput := fun _ => .ok (ProcOutput.mk [104, 105, 10])

/-- Fixture oracle: like `envOk` but `std::env::current_dir()` fails with
`EACCES`. -/
def envCwdFail : Env where
  platform := .posix
  currentDir := .error "EACCES"
  spawn := fun _ => .ok ()
  waitOutput := fun _ => .ok (ProcOutput.mk [104, 105, 10])

/-- Fixture oracle: like `envOk` but the captured stdout bytes
`[0x68, 0xFF, 0x0A]` contain an invalid UTF-8 byte. -/
def envRaw : Env where
  platform := .posix
  currentDir := .ok "/w"
  spawn := fun _ => .ok ()
  waitOutput := fun _ => .ok (ProcOutput.mk [104, 255, 10])

/-- A parallel worker task either finishes normally or panics; it never
produces a propagated error, because both failure points go through
`.unwrap()`. -/
theorem execTask_status (env : Env) (c : CommandType) :
    (execTask env c).2 = .ok ∨ (execTask env c).2 = .panicked := by
  unfold execTask
  cases hr : run env c with
  | none => simp
  | some r =>
      by_cases hw : r.wait
      · cases hc : r.child with
        | error e => simp [hw, hc]
        | ok u => cases ho : env.waitOutput r.call <;> simp [hw, hc, ho]
      · simp [hw]

/-- A waited task whose spawn or wait fails panics at one of the two
`.unwrap()` calls. -/
theorem execTask_panicked_of_failure {env : Env} {cmd : CommandType}
    {r : ExecutionResult} {e : String}
    (hrun : run env cmd = some r) (hwait : r.wait = true)
    (hfail : r.child = .error e ∨ env.waitOutput r.call = .error e) :
    (execTask env cmd).2 = .panicked := by
  rcases hfail with hc | ho
  · simp [execTask, hrun, hwait, hc]
  · cases hc : r.child with
    | error e2 => simp [execTask, hrun, hwait, hc]
    | ok u => simp [execTask, hrun, hwait, hc, ho]

/-- A panic of any scheduled task makes the whole parallel join panic. -/
theorem execTasks_panicked_of_mem (env : Env) {cmd : CommandType}
    {l : List CommandType} (hmem : cmd ∈ l)
    (hp : (execTask env cmd).2 = .panicked) :
    (execTasks env l).2 = .panicked := by
  induction l with
  | nil => cases hmem
  | cons c rest ih =>
      rcases List.mem_cons.mp hmem with rfl | hmem2
      · simp [execTasks, hp]
      · rcases execTask_status env c with h | h
        · simp [execTasks, h, ih hmem2]
        · simp [execTasks, h]

/-- When every scheduled task finishes normally, the parallel join returns
normally and its output is the concatenation of every task's lines. -/
theorem execTasks_all_ok (env : Env) {l : List CommandType}
    (hok : ∀ c ∈ l, (execTask env c).2 = .ok) :
    execTasks env l = (l.flatMap (fun c => (execTask env c).1), .ok) := by
  induction l with
  | nil => simp [execTasks]
  | cons c rest ih =>
      have hc := hok c (List.mem_cons_self c rest)
      have hrest : ∀ x ∈ rest, (execTask env x).2 = .ok :=
        fun x hx => hok x (List.mem_cons_of_mem c hx)
      simp [execTasks, hc, ih hrest]

/-- A batch that completes normally is followed by the remaining batches:
its lines come first and the rest of the run is unchanged. -/
theorem execute_cons_of_ok (env : Env)
    (sched : List CommandType → List CommandType) {b : Command}
    (rest : List Command) (hb : (execBatch env sched b).2 = .ok) :
    execute env sched (b :: rest) =
      ((execBatch env sched b).1 ++ (execute env sched rest).1,
        (execute env sched rest).2) := by
  simp [execute, hb]

/-- A batch that panics aborts the run: no later batch contributes
anything. -/
theorem execute_cons_of_panicked (env : Env)
    (sched : List CommandType → List CommandType) {b : Command}
    (rest : List Command) (hb : (execBatch env sched b).2 = .panicked) :
    execute env sched (b :: rest) = ((execBatch env sched b).1, .panicked) := by
  simp [execute, hb]

/-- Claim C2: for a batch sequence `[Single A, Single B]` where dispatching
A yields a process-start error and A is awaited, the `?` on the spawn
result propagates the error to the run's top level: the run's whole output
and status are determined by A alone, so B is never dispatched. -/
theorem C2_single_abort (env : Env)
    (sched : List CommandType → List CommandType) (A B : CommandType)
    (r : ExecutionResult) (e : String) (hrun : run env A = some r)
    (hwait : r.wait = true) (hchild : r.child = .error e) :
    execute env sched [.Single A, .Single B] = ([A.display], .err e) := by
  simp [execute, execBatch, execSingle, hrun, hwait, hchild]

/-- Witness for C2 at a concrete input: shell line `a` fails to start with
`ENOENT`, so the run stops after printing only `a`'s label. -/
theorem C2_witness :
    execute envSpawnFail id [.Single (.Command "a"), .Single (.Command "b")]
      = ([(CommandType.Command "a").display], .err "ENOENT") :=
  C2_single_abort envSpawnFail id (.Command "a") (.Command "b")
    { call := (shell_command .posix).arg "a", child := .error "ENOENT", wait := true }
    "ENOENT" rfl rfl rfl

/-- Claim C4: dispatch of a ShellLine builds the platform's interpreter
invocation (`sh -c <text>` on POSIX, `cmd /C <text>` on Windows), records
the spawn of exactly that invocation, and always sets `should_wait = true`;
consequently a shell line whose spawn and wait succeed is awaited and its
decoded stdout reported. -/
theorem C4_shell_dispatch (env : Env) (s : String) (out : ProcOutput)
    (hspawn : env.spawn ((shell_command env.platform).arg s) = .ok ())
    (hwaitres : env.waitOutput ((shell_command env.platform).arg s) = .ok out) :
    run env (.Command s) =
      some { call := (shell_command env.platform).arg s,
             child := env.spawn ((shell_command env.platform).arg s),
             wait := true }
    ∧ (shell_command .posix).arg s = { program := "sh", args := ["-c", s], cwd := none }
    ∧ (shell_command .windows).arg s = { program := "cmd", args := ["/C", s], cwd := none }
    ∧ execSingle env (.Command s) = ([s, utf8Lossy out.stdout], .ok) := by
  refine ⟨rfl, rfl, rfl, ?_⟩
  simp [execSingle, run, hspawn, hwaitres, CommandType.display]

/-- Witness for C4 at a concrete input: `echo hi` under the POSIX fixture
oracle is awaited and its stdout `hi\n` reported. -/
theorem C4_witness :
    run envOk (.Command "echo hi") =
      some { call := (shell_command envOk.platform).arg "echo hi",
             child := envOk.spawn ((shell_command envOk.platform).arg "echo hi"),
             wait := true }
    ∧ (shell_command .posix).arg "echo hi"
        = { program := "sh", args := ["-c", "echo hi"], cwd := none }
    ∧ (shell_command .windows).arg "echo hi"
        = { program := "cmd", args := ["/C", "echo hi"], cwd := none }
    ∧ execSingle envOk (.Command "echo hi") = (["echo hi", "hi\n"], .ok) :=
  C4_shell_dispatch envOk "echo hi" (ProcOutput.mk [104, 105, 10]) rfl rfl

/-- Claim C7: in the `Execution` field map, a missing `args` field
deserializes to the empty argument list, a missing `spawn_only` field to
`false`, a missing `working_directory` field to `None`; and dispatch
resolves an absent working directory to the caller's current directory. -/
theorem C7_defaults (entries : List (String × Yaml)) (c : String) (env : Env)
    (cur : String) (args : List String) (so : Bool)
    (hcmd : lookupField entries "command" = some (.str c))
    (hwd : lookupField entries "working_directory" = none)
    (hargs : lookupField entries "args" = none)
    (hso : lookupField entries "spawn_only" = none)
    (hcur : env.currentDir = .ok cur) :
    deserializeExecution (.map entries) = .ok (.Execution c none [] false)
    ∧ run env (.Execution c none args so) =
        some { call := execCall c none args cur,
               child := env.spawn (execCall c none args cur), wait := !so }
    ∧ execCall c none args cur = { program := c, args := args, cwd := some cur } := by
  refine ⟨?_, ?_, rfl⟩
  · simp only [deserializeExecution, fieldOptString, fieldArgsD, fieldSpawnOnlyD,
      hcmd, hwd, hargs, hso]
    rfl
  · simp [run, execCall, hcur]

/-- Witness for C7 at a concrete input: a map holding only `command`
deserializes with all three defaults, and dispatch under the fixture
oracle uses the current directory `/w`. -/
theorem C7_witness :
    deserializeExecution (.map [("command", .str "p")])
      = .ok (.Execution "p" none [] false)
    ∧ run envOk (.Execution "p" none ["x"] false) =
        some { call := execCall "p" none ["x"] "/w",
               child := envOk.spawn (execCall "p" none ["x"] "/w"), wait := !false }
    ∧ execCall "p" none ["x"] "/w"
        = { program := "p", args := ["x"], cwd := some "/w" } :=
  C7_defaults [("command", .str "p")] "p" envOk "/w" ["x"] false rfl rfl rfl rfl rfl

/-- Claim C10: for every `Execution` spec, even one with an explicit
working directory, dispatch eagerly evaluates `std::env::current_dir()`
because `map_or` takes its default by value, and `.unwrap()` panics when
it fails — so both the Single path and the Parallel path end in a panic,
never in the `Result` error path. -/
theorem C10_eager_current_dir (env : Env) (c : String) (wd : Option String)
    (args : List String) (so : Bool) (e : String)
    (hcur : env.currentDir = .error e) :
    run env (.Execution c wd args so) = none
    ∧ execSingle env (.Execution c wd args so)
        = ([(CommandType.Execution c wd args so).display], .panicked)
    ∧ execTask env (.Execution c wd args so)
        = ([(CommandType.Execution c wd args so).display], .panicked) := by
  refine ⟨?_, ?_, ?_⟩ <;> simp [run, execSingle, execTask, hcur]

/-- Witness for C10 at a concrete input: an explicit working directory
`d` does not prevent the panic when `current_dir` fails with `EACCES`. -/
theorem C10_witness :
    run envCwdFail (.Execution "p" (some "d") ["x"] false) = none
    ∧ execSingle envCwdFail (.Execution "p" (some "d") ["x"] false)
        = ([(CommandType.Execution "p" (some "d") ["x"] false).display], .panicked)
    ∧ execTask envCwdFail (.Execution "p" (some "d") ["x"] false)
        = ([(CommandType.Execution "p" (some "d") ["x"] false).display], .panicked) :=
  C10_eager_current_dir envCwdFail "p" (some "d") ["x"] false "EACCES" rfl

/-- Counterexample to claim C1 as stated: a Parallel group containing one
spawn-only task whose process fails to start (`ENOENT` is captured in the
dispatch result) completes normally with the spawned marker — the process
does not terminate abruptly, because the spawn-only arm never inspects the
spawn result. -/
theorem C1_counterexample :
    envSpawnFail.spawn (execCall "p" none [] "/w") = .error "ENOENT"
    ∧ run envSpawnFail (.Execution "p" none [] true) =
        some { call := execCall "p" none [] "/w", child := .error "ENOENT",
               wait := false }
    ∧ execute envSpawnFail id [.Parallel [.Execution "p" none [] true]] =
        ([(CommandType.Execution "p" none [] true).display,
          "spawned " ++ (CommandType.Execution "p" none [] true).display], .ok) :=
  ⟨rfl, rfl, rfl⟩

/-- Claim C1 amended: if any task of a Parallel group that is awaited
(`should_wait = true`) fails — its process fails to start, or waiting on
it / reading its output fails — the `.unwrap()` in the worker panics and
the whole process terminates abruptly: the run ends in a panic after this
batch and no later batch contributes anything.  (A process-start failure
of a spawn-only task is ignored instead; see the counterexample.) -/
theorem C1_parallel_abort (env : Env)
    (sched : List CommandType → List CommandType) (cmds : List CommandType)
    (cmd : CommandType) (r : ExecutionResult) (e : String)
    (rest : List Command) (hmem : cmd ∈ sched cmds)
    (hrun : run env cmd = some r) (hwait : r.wait = true)
    (hfail : r.child = .error e ∨ env.waitOutput r.call = .error e) :
    execute env sched (.Parallel cmds :: rest)
      = ((execTasks env (sched cmds)).1, .panicked) := by
  have hp : (execTask env cmd).2 = .panicked :=
    execTask_panicked_of_failure hrun hwait hfail
  have hb : (execBatch env sched (.Parallel cmds)).2 = .panicked :=
    execTasks_panicked_of_mem env hmem hp
  exact execute_cons_of_panicked env sched rest hb

/-- Witness for the amended C1 at a concrete input: shell line `a` fails
to start inside a Parallel group, and the whole run — including the later
Single batch — ends in a panic. -/
theorem C1_witness :
    execute envSpawnFail id
        [.Parallel [.Command "a", .Command "b"], .Single (.Command "c")]
      = ((execTasks envSpawnFail (id [.Command "a", .Command "b"])).1, .panicked) :=
  C1_parallel_abort envSpawnFail id [.Command "a", .Command "b"] (.Command "a")
    { call := (shell_command .posix).arg "a", child := .error "ENOENT", wait := true }
    "ENOENT" [.Single (.Command "c")] (by decide) rfl rfl (Or.inl rfl)

/-- Counterexample to claim C3 as stated: for a DirectExecution spec with
`spawn_only = true`, the process-start failure `ENOENT` is captured in the
dispatch result but the Single arm prints the spawned marker, ends with
status ok, and never surfaces the error — it is silently swallowed. -/
theorem C3_counterexample :
    envSpawnFail.spawn (execCall "q" none [] "/w") = .error "ENOENT"
    ∧ (run envSpawnFail (.Execution "q" none [] true)).map ExecutionResult.child
        = some (.error "ENOENT")
    ∧ execSingle envSpawnFail (.Execution "q" none [] true) =
        ([(CommandType.Execution "q" none [] true).display,
          "spawned " ++ (CommandType.Execution "q" none [] true).display], .ok) :=
  ⟨rfl, rfl, rfl⟩

/-- Claim C3 amended: a process-start failure captured in the dispatch
result is surfaced only when the spec is awaited — the Single path
propagates it to the run's top level as an error, the Parallel path panics
— while for a spec with `should_wait = false` (a DirectExecution with
`spawn_only = true`) the captured error is never inspected: the spawned
marker is printed and the outcome is ok. -/
theorem C3_error_surfacing (env : Env) (cmd : CommandType)
    (r : ExecutionResult) (e : String) (hrun : run env cmd = some r)
    (hchild : r.child = .error e) :
    (r.wait = true →
      (execSingle env cmd).2 = .err e ∧ (execTask env cmd).2 = .panicked)
    ∧ (r.wait = false →
      execSingle env cmd = ([cmd.display, "spawned " ++ cmd.display], .ok)) := by
  constructor
  · intro hw
    constructor
    · simp [execSingle, hrun, hw, hchild]
    · simp [execTask, hrun, hw, hchild]
  · intro hw
    simp [execSingle, hrun, hw]

/-- Witness for the amended C3 at two concrete inputs: the awaited shell
line `a` surfaces `ENOENT` (error in the Single path, panic in the
Parallel path), while the spawn-only spec `q` prints the spawned marker
and succeeds. -/
theorem C3_witness :
    ((execSingle envSpawnFail (.Command "a")).2 = .err "ENOENT"
      ∧ (execTask envSpawnFail (.Command "a")).2 = .panicked)
    ∧ execSingle envSpawnFail (.Execution "q" none [] true) =
        ([(CommandType.Execution "q" none [] true).display,
          "spawned " ++ (CommandType.Execution "q" none [] true).display], .ok) :=
  ⟨(C3_error_surfacing envSpawnFail (.Command "a")
      { call := (shell_command .posix).arg "a", child := .error "ENOENT", wait := true }
      "ENOENT" rfl rfl).1 rfl,
   (C3_error_surfacing envSpawnFail (.Execution "q" none [] true)
      { call := execCall "q" none [] "/w", child := .error "ENOENT", wait := false }
      "ENOENT" rfl rfl).2 rfl⟩

/-- Claim C5: dispatch of a DirectExecution spec sets
`should_wait = !spawn_only`; with `spawn_only = true` the reported body is
the spawned marker and the outcome is independent of the wait oracle (the
call never blocks on process exit), and with `spawn_only = false` a
successful spawn and wait report the captured stdout bytes decoded
lossily as UTF-8. -/
theorem C5_direct_dispatch (env : Env) (c : String) (wd : Option String)
    (args : List String) (so : Bool) (cur : String)
    (hcur : env.currentDir = .ok cur) :
    run env (.Execution c wd args so) =
      some { call := execCall c wd args cur,
             child := env.spawn (execCall c wd args cur), wait := !so }
    ∧ (execSingle env (.Execution c wd args true) =
        ([(CommandType.Execution c wd args true).display,
          "spawned " ++ (CommandType.Execution c wd args true).display], .ok)
      ∧ ∀ w, execSingle { env with waitOutput := w } (.Execution c wd args true)
          = execSingle env (.Execution c wd args true))
    ∧ (∀ out, env.spawn (execCall c wd args cur) = .ok ()
        → env.waitOutput (execCall c wd args cur) = .ok out
        → execSingle env (.Execution c wd args false) =
            ([(CommandType.Execution c wd args false).display,
              utf8Lossy out.stdout], .ok)) := by
  refine ⟨?_, ⟨?_, ?_⟩, ?_⟩
  · simp [run, execCall, hcur]
  · simp [execSingle, run, hcur]
  · intro w
    simp [execSingle, run, hcur]
  · intro out hsp hwo
    simp [execSingle, run, execCall, hcur] at hsp hwo ⊢
    simp [hsp, hwo]

/-- Witness for C5 at a concrete input: under the fixture oracle with raw
stdout bytes `[0x68, 0xFF, 0x0A]`, the non-spawn-only spec is awaited and
its body is the lossy decoding `h�\n` of those bytes. -/
theorem C5_witness :
    (run envRaw (.Execution "p" (some "d") ["x"] false) =
      some { call := execCall "p" (some "d") ["x"] "/w",
             child := envRaw.spawn (execCall "p" (some "d") ["x"] "/w"),
             wait := !false }
    ∧ (execSingle envRaw (.Execution "p" (some "d") ["x"] true) =
        ([(CommandType.Execution "p" (some "d") ["x"] true).display,
          "spawned " ++ (CommandType.Execution "p" (some "d") ["x"] true).display], .ok)
      ∧ ∀ w, execSingle { envRaw with waitOutput := w } (.Execution "p" (some "d") ["x"] true)
          = execSingle envRaw (.Execution "p" (some "d") ["x"] true))
    ∧ (∀ out, envRaw.spawn (execCall "p" (some "d") ["x"] "/w") = .ok ()
        → envRaw.waitOutput (execCall "p" (some "d") ["x"] "/w") = .ok out
        → execSingle envRaw (.Execution "p" (some "d") ["x"] false) =
            ([(CommandType.Execution "p" (some "d") ["x"] false).display,
              utf8Lossy out.stdout], .ok)))
    ∧ execSingle envRaw (.Execution "p" (some "d") ["x"] false) =
        ([(CommandType.Execution "p" (some "d") ["x"] false).display, "h�\n"], .ok) :=
  ⟨C5_direct_dispatch envRaw "p" (some "d") ["x"] false "/w" rfl,
   (C5_direct_dispatch envRaw "p" (some "d") ["x"] false "/w" rfl).2.2
     (ProcOutput.mk [104, 255, 10]) rfl rfl⟩

/-- Claim C6: the executor handles batches strictly in order — a batch
that completes normally contributes its lines before the remaining batches
run — and a Parallel batch whose tasks all succeed joins all of them, in
any schedule that permutes the group: its line list is the concatenation
over every scheduled task, the schedule preserves the task count, and the
reported labels are a permutation of the input labels. -/
theorem C6_order_and_completion (env : Env)
    (sched : List CommandType → List CommandType) (cmds : List CommandType)
    (b : Command) (rest : List Command)
    (hperm : (sched cmds).Perm cmds)
    (hok : ∀ c ∈ cmds, (execTask env c).2 = .ok)
    (hbok : (execBatch env sched b).2 = .ok) :
    execTasks env (sched cmds)
      = ((sched cmds).flatMap (fun c => (execTask env c).1), .ok)
    ∧ ((sched cmds).map CommandType.display).Perm (cmds.map CommandType.display)
    ∧ (sched cmds).length = cmds.length
    ∧ execute env sched (b :: rest) =
        ((execBatch env sched b).1 ++ (execute env sched rest).1,
          (execute env sched rest).2) :=
  ⟨execTasks_all_ok env (fun c hc => hok c (hperm.mem_iff.mp hc)),
   hperm.map CommandType.display, hperm.length_eq,
   execute_cons_of_ok env sched rest hbok⟩

/-- Reversal schedule used to exercise C6 with a nontrivial
interleaving. -/
def revSched : List CommandType → List CommandType := fun l => l.reverse

/-- Witness for C6 at a concrete input: a two-task group scheduled in
reverse still joins both tasks with both labels reported, and the group
completes before the following Single batch runs. -/
theorem C6_witness :
    execTasks envOk (revSched [.Command "a", .Command "b"])
      = ((revSched [.Command "a", .Command "b"]).flatMap
          (fun c => (execTask envOk c).1), .ok)
    ∧ ((revSched [.Command "a", .Command "b"]).map
        CommandType.display).Perm
        (([.Command "a", .Command "b"] : List CommandType).map CommandType.display)
    ∧ (revSched [.Command "a", .Command "b"]).length
        = ([.Command "a", .Command "b"] : List CommandType).length
    ∧ execute envOk revSched
        (.Parallel [.Command "a", .Command "b"] :: [.Single (.Command "c")]) =
        ((execBatch envOk revSched
            (.Parallel [.Command "a", .Command "b"])).1
          ++ (execute envOk revSched [.Single (.Command "c")]).1,
          (execute envOk revSched [.Single (.Command "c")]).2) :=
  C6_order_and_completion envOk revSched
    [.Command "a", .Command "b"] (.Parallel [.Command "a", .Command "b"])
    [.Single (.Command "c")] (by decide) (by decide) (by decide)

/-- Counterexample to claim C8 as stated: the serde-derived enums are
externally tagged, so a bare string does not deserialize to a ShellLine
and a bare sequence does not deserialize to a Parallel batch — both are
type errors. -/
theorem C8_counterexample :
    (deserializeCommandType (.str "echo hi")).isOk = false
    ∧ (deserializeCommand (.seq [.map [("Command", .str "echo hi")]])).isOk
        = false :=
  ⟨rfl, rfl⟩

/-- Claim C8 amended: the configuration forms are externally tagged
single-key maps — `Command: <string>` deserializes to a ShellLine,
`Parallel: <sequence>` to a Parallel batch, `Single` to a Single batch —
and the `Execution` form uses exactly the field names `command`,
`working_directory`, `args`, `spawn_only`. -/
theorem C8_tagged_forms (s d a : String) (items : List Yaml)
    (cs : List CommandType)
    (hitems : deserializeCommandTypeList items = .ok cs) :
    deserializeCommandType (.map [("Command", .str s)]) = .ok (.Command s)
    ∧ deserializeCommand (.map [("Parallel", .seq items)]) = .ok (.Parallel cs)
    ∧ deserializeCommand (.map [("Single", .map [("Command", .str s)])])
        = .ok (.Single (.Command s))
    ∧ deserializeCommandType (.map [("Execution",
          .map [("command", .str s), ("working_directory", .str d),
                ("args", .seq [.str a]), ("spawn_only", .bool true)])])
        = .ok (.Execution s (some d) [a] true) := by
  refine ⟨rfl, ?_, rfl, ?_⟩
  · simp [deserializeCommand, hitems, Except.map]
  · simp only [deserializeCommandType, deserializeExecution, lookupField,
      fieldOptString, fieldArgsD, fieldSpawnOnlyD, deserializeStringList]
    rfl

/-- Witness for the amended C8 at a concrete input: a one-element
`Parallel` group of a tagged shell line deserializes, together with the
other tagged forms. -/
theorem C8_witness :
    deserializeCommandType (.map [("Command", .str "echo hi")])
      = .ok (.Command "echo hi")
    ∧ deserializeCommand (.map [("Parallel", .seq [.map [("Command", .str "x")]])])
        = .ok (.Parallel [.Command "x"])
    ∧ deserializeCommand (.map [("Single", .map [("Command", .str "echo hi")])])
        = .ok (.Single (.Command "echo hi"))
    ∧ deserializeCommandType (.map [("Execution",
          .map [("command", .str "echo hi"), ("working_directory", .str "w"),
                ("args", .seq [.str "v"]), ("spawn_only", .bool true)])])
        = .ok (.Execution "echo hi" (some "w") ["v"] true) :=
  C8_tagged_forms "echo hi" "w" "v" [.map [("Command", .str "x")]]
    [.Command "x"] rfl

/-- On a character the escaping emits verbatim, `rustEscapeChar` is the
one-character string: none of the named-escape or unicode-escape branches
applies to printable ASCII other than the quote and the backslash. -/
theorem rustEscapeChar_plain {c : Char} (h : plainChar c = true) :
    rustEscapeChar c = String.singleton c := by
  simp only [plainChar, Bool.and_eq_true, decide_eq_true_eq] at h
  obtain ⟨⟨⟨h1, h2⟩, h3⟩, h4⟩ := h
  have hz : ¬(c = Char.ofNat 0) := by rintro rfl; exact absurd h1 (by decide)
  have ht : ¬(c = '\t') := by rintro rfl; exact absurd h1 (by decide)
  have hr : ¬(c = '\r') := by rintro rfl; exact absurd h1 (by decide)
  have hn : ¬(c = '\n') := by rintro rfl; exact absurd h1 (by decide)
  simp [rustEscapeChar, hz, ht, hr, hn, h3, h4, h1, h2]

/-- Escaping a list of verbatim-rendered characters reproduces the list as
a string. -/
theorem escapeAll_plain_list {l : List Char} (h : l.all plainChar = true) :
    escapeAll l = String.mk l := by
  induction l with
  | nil => rfl
  | cons c cs ih =>
      simp only [List.all_cons, Bool.and_eq_true] at h
      show rustEscapeChar c ++ escapeAll cs = String.mk (c :: cs)
      rw [rustEscapeChar_plain h.1, ih h.2]
      rfl

/-- Escaping the contents of a plain string reproduces the string. -/
theorem escapeAll_plain {s : String} (h : plainString s = true) :
    escapeAll s.data = s := by
  cases s with
  | mk data => exact escapeAll_plain_list h

/-- Counterexample to claim C9 as stated: a DirectExecution with no
explicit working directory runs in the caller's current directory `/w`,
yet its printed label is `p in None with []` — the label renders the raw
optional field, not the command's working directory. -/
theorem C9_counterexample :
    (CommandType.Execution "p" none [] false).display = "p in None with []"
    ∧ run envOk (.Execution "p" none [] false) =
        some { call := { program := "p", args := [], cwd := some "/w" },
               child := .ok (), wait := true }
    ∧ "p in None with []" ≠ "p in /w with []" :=
  ⟨rfl, rfl, by decide⟩

/-- Claim C9 amended: a ShellLine's label is the verbatim shell text, and
a DirectExecution's label is `<program> in <wd> with <args>` where `<wd>`
is the Rust `Debug` rendering of the raw `working_directory` field — `None`
when absent, else `Some("...")` with the contents escaped per
`char::escape_debug` — not the resolved working directory, and `<args>`
the `Debug` rendering of the argument vector.  The escape table is pinned
at its named-escape and unicode-escape cases, and exact quoting is proved
for plain (verbatim-rendered ASCII) contents, the fragment on which the
embedded escaping coincides with Rust's. -/
theorem C9_display_label (s c d : String) (args : List String) (so : Bool)
    (hd : plainString d = true) :
    (CommandType.Command s).display = s
    ∧ (CommandType.Execution c none args so).display
        = c ++ " in " ++ "None" ++ " with " ++ rustDebugList args
    ∧ (CommandType.Execution c (some d) args so).display
        = c ++ " in " ++ ("Some(" ++ ("\"" ++ d ++ "\"") ++ ")") ++ " with "
          ++ rustDebugList args
    ∧ rustEscapeChar (Char.ofNat 0) = "\\0"
    ∧ rustEscapeChar '\t' = "\\t"
    ∧ rustEscapeChar '\r' = "\\r"
    ∧ rustEscapeChar '\n' = "\\n"
    ∧ rustEscapeChar '\\' = "\\\\"
    ∧ rustEscapeChar '"' = "\\\""
    ∧ rustEscapeChar (Char.ofNat 1) = "\\u\x7b1\x7d"
    ∧ (CommandType.Execution "p" (some "d") ["a"] false).display
        = "p in Some(\"d\") with [\"a\"]" := by
  refine ⟨rfl, rfl, ?_, by decide, by decide, by decide, by decide, by decide,
    by decide, by decide, by decide⟩
  simp only [CommandType.display, rustDebugOption, rustDebugString,
    escapeAll_plain hd]

/-- Witness for the amended C9 at a concrete input: the plain directory
string `d` is rendered verbatim inside `Some("...")`. -/
theorem C9_witness :
    (CommandType.Command "x").display = "x"
    ∧ (CommandType.Execution "p" none ["a"] false).display
        = "p" ++ " in " ++ "None" ++ " with " ++ rustDebugList ["a"]
    ∧ (CommandType.Execution "p" (some "d") ["a"] false).display
        = "p" ++ " in " ++ ("Some(" ++ ("\"" ++ "d" ++ "\"") ++ ")") ++ " with "
          ++ rustDebugList ["a"]
    ∧ rustEscapeChar (Char.ofNat 0) = "\\0"
    ∧ rustEscapeChar '\t' = "\\t"
    ∧ rustEscapeChar '\r' = "\\r"
    ∧ rustEscapeChar '\n' = "\\n"
    ∧ rustEscapeChar '\\' = "\\\\"
    ∧ rustEscapeChar '"' = "\\\""
    ∧ rustEscapeChar (Char.ofNat 1) = "\\u\x7b1\x7d"
    ∧ (CommandType.Execution "p" (some "d") ["a"] false).display
        = "p in Some(\"d\") with [\"a\"]" :=
  C9_display_label "x" "p" "d" ["a"] false (by decide)
